import Mathlib

/-!
Verification of the core of `gtscio/data`: the framework data-type validators
(`FrameworkDataTypes.validateIProperty`, `FrameworkDataTypes.validateIPropertyList`
from `src/packages/data-framework/src/dataTypes/frameworkDataTypes.ts`) and the
namespace resolver of `IdentifierHandlerFactory`.

JavaScript values are embedded as an inductive `JSValue`; the validators thread an
explicit failures list instead of mutating a sink array (validators only ever
append, so the appended suffix is returned).  Helpers from `@gtsc/core` /
`@twin.org/core` (`Is`, `Validation`, `Url`, `Urn`, the registry `get`) are not
part of this repository's sources; they are modelled from the spec, each marked
`Modelled from the spec:` in its doc comment.  A possible JavaScript `TypeError`
(reading `.key` of `null`/`undefined`) is embedded with `Except Unit`.
-/

/-- Embedded JavaScript value. Numbers are embedded as integers (the claims only
need integral values); objects are ordered field lists, first binding wins. -/
inductive JSValue where
  | null : JSValue
  | undefined : JSValue
  | bool : Bool → JSValue
  | num : Int → JSValue
  | str : String → JSValue
  | arr : List JSValue → JSValue
  | obj : List (String × JSValue) → JSValue

/-- One entry of the failures sink: `{ property, reason }` as in `IValidationFailure`. -/
structure ValidationFailure where
  property : String
  reason : String
deriving Repr, DecidableEq

/-- Whether a value is a JavaScript object (the shape `Validation.object` tests). -/
def JSValue.isObj : JSValue → Bool
  | .obj _ => true
  | _ => false

/-- Property read `v.name` where the receiver is known not to throw: on an object
it is the first field of that name (or `undefined`); on any other non-nullish
value JavaScript yields `undefined`. -/
def getProp : JSValue → String → JSValue
  | .obj fields, name => (fields.lookup name).getD .undefined
  | _, _ => .undefined

/-- Property read `v.name` with JavaScript semantics for nullish receivers:
reading a property of `null` or `undefined` throws a `TypeError` (`.error ()`). -/
def getPropEx (v : JSValue) (name : String) : Except Unit JSValue :=
  match v with
  | .null => .error ()
  | .undefined => .error ()
  | _ => .ok (getProp v name)

/-- JavaScript strict equality `===` on embedded values.  Objects and arrays
compare by reference in JavaScript; distinct embedded composites are taken as
distinct references, so they compare unequal here. -/
def jsStrictEq : JSValue → JSValue → Bool
  | .null, .null => true
  | .undefined, .undefined => true
  | .bool a, .bool b => a == b
  | .num a, .num b => a == b
  | .str a, .str b => a == b
  | _, _ => false

/-- Modelled from the spec: `Is.empty` from `@gtsc/core` (not under src); the
spec treats absent (`null`/`undefined`) input as the short-circuiting case. -/
def Is.empty : JSValue → Bool
  | .null => true
  | .undefined => true
  | _ => false

/-- Modelled from the spec: `Is.array` from `@gtsc/core` (not under src); true
exactly when the value is an array. -/
def Is.array : JSValue → Bool
  | .arr _ => true
  | _ => false

/-- Modelled from the spec: `Validation.object` from `@gtsc/core` (not under
src).  Structural rule "value must be an object": returns whether the value is
an object and, on violation, appends one failure with a stable reason code. -/
def Validation.object (propertyName : String) (value : JSValue) :
    Bool × List ValidationFailure :=
  match value with
  | .obj _ => (true, [])
  | _ => (false, [⟨propertyName, "validation.beObject"⟩])

/-- Modelled from the spec: `Validation.stringValue` from `@gtsc/core` (not
under src).  Structural rule "non-empty string": returns whether the value is a
non-empty string and, on violation, appends one failure. -/
def Validation.stringValue (propertyName : String) (value : JSValue) :
    Bool × List ValidationFailure :=
  match value with
  | .str s => if s.isEmpty then (false, [⟨propertyName, "validation.beTextNotEmpty"⟩])
              else (true, [])
  | _ => (false, [⟨propertyName, "validation.beText"⟩])

/-- Modelled from the spec: `Validation.notEmpty` from `@gtsc/core` (not under
src).  Structural rule "non-empty value": fails exactly on absent
(`null`/`undefined`) values, appending one failure. -/
def Validation.notEmpty (propertyName : String) (value : JSValue) :
    Bool × List ValidationFailure :=
  match value with
  | .null => (false, [⟨propertyName, "validation.notEmpty"⟩])
  | .undefined => (false, [⟨propertyName, "validation.notEmpty"⟩])
  | _ => (true, [])

/-- A registered data-type handler as the validation engine consumes it: an
optional validator `(propertyName, value, container) ↦ (result, appended
failures)`.  The caller ignores the validator's boolean result. -/
structure DataTypeHandler where
  validate : Option (String → JSValue → JSValue → Bool × List ValidationFailure)

/-- The ambient black boxes of the validation engine: the syntactic URL
validity predicate used by `Url.validate` (from `@gtsc/core`, not under src)
and the registry lookup `DataTypeHandlerFactory.get` (from `@gtsc/data-core`,
not under src), both modelled from the spec at their interface. -/
structure Env where
  isUrl : String → Bool
  registry : String → Option DataTypeHandler

/-- Modelled from the spec: `Url.validate` from `@gtsc/core` (not under src).
Structural rule "syntactically valid type identifier": the value must be a
string accepted by the black-box URL predicate; on violation one failure is
appended. -/
def Url.validate (env : Env) (propertyName : String) (value : JSValue) :
    Bool × List ValidationFailure :=
  match value with
  | .str s => if env.isUrl s then (true, [])
              else (false, [⟨propertyName, "validation.beUrl"⟩])
  | _ => (false, [⟨propertyName, "validation.beUrl"⟩])

/-- `FrameworkDataTypes.validateIProperty` (frameworkDataTypes.ts lines
161-182).  Checks the value is an object; if so, checks `key` is a non-empty
string, `type` is a valid URL and `value` is non-empty (appending failures,
results of those three checks not affecting the return), then, when the type
URL is valid, looks the type up in the registry and, when a handler with a
validator exists, delegates `value.value` to it, appending its failures.
Returns the object-check result. -/
def validateIProperty (env : Env) (propertyName : String) (value : JSValue)
    (container : JSValue) : Bool × List ValidationFailure :=
  let ro := Validation.object propertyName value
  if ro.1 then
    let rKey := Validation.stringValue (propertyName ++ ".key") (getProp value "key")
    let rType := Url.validate env (propertyName ++ ".type") (getProp value "type")
    let rVal := Validation.notEmpty (propertyName ++ ".value") (getProp value "value")
    let nested :=
      if rType.1 then
        match getProp value "type" with
        | .str t =>
          match (env.registry t).bind DataTypeHandler.validate with
          | some vf => (vf propertyName (getProp value "value") container).2
          | none => []
        | _ => []
      else []
    (true, ro.2 ++ rKey.2 ++ rType.2 ++ rVal.2 ++ nested)
  else
    (false, ro.2)

/-- The reason code pushed by `validateIPropertyList` for a duplicated key
(frameworkDataTypes.ts line 136). -/
def keyAlreadyExists : String := "validation.properties.keyAlreadyExists"

/-- The duplicate-key check of one loop iteration (frameworkDataTypes.ts lines
133-138): when the element's key strictly equals one of the keys seen so far,
exactly one failure with the duplicate reason is produced at
`propertyName[i].key`; otherwise none. -/
def dupBlock (propertyName : String) (keys : List JSValue) (i : Nat) (k : JSValue) :
    List ValidationFailure :=
  if keys.any (fun k2 => jsStrictEq k2 k) then
    [⟨propertyName ++ "[" ++ toString i ++ "].key", keyAlreadyExists⟩]
  else []

/-- The loop body of `validateIPropertyList` (frameworkDataTypes.ts lines
131-147): walks the remaining elements carrying the current index and the
`keys` seen so far; for each element reads `element.key` (which can throw on a
nullish element), pushes a duplicate-key failure when that key strictly equals
one already seen, records the key, and delegates the element to
`validateIProperty`.  Returns the thrown/normal outcome and the failures
appended from this point on. -/
def propListLoop (env : Env) (propertyName : String) (container : JSValue) :
    List JSValue → Nat → List JSValue → Except Unit Unit × List ValidationFailure
  | [], _, _ => (.ok (), [])
  | v :: rest, i, keys =>
    match getPropEx v "key" with
    | .error _ => (.error (), [])
    | .ok k =>
      let dup := dupBlock propertyName keys i k
      let pf :=
        (validateIProperty env (propertyName ++ "[" ++ toString i ++ "]") v container).2
      let res := propListLoop env propertyName container rest (i + 1) (keys ++ [k])
      (res.1, dup ++ pf ++ res.2)

/-- `FrameworkDataTypes.validateIPropertyList` (frameworkDataTypes.ts lines
118-151).  Absent input short-circuits to `true`; otherwise the value must be
an array (returning `false` without failures when it is not); an array is
walked by `propListLoop` and the array-check result `true` is returned unless
the walk threw. -/
def validateIPropertyList (env : Env) (propertyName : String) (value : JSValue)
    (container : JSValue) : Except Unit Bool × List ValidationFailure :=
  if Is.empty value then (.ok true, [])
  else
    match value with
    | .arr elems =>
      let res := propListLoop env propertyName container elems 0 []
      (match res.1 with
       | .ok _ => .ok true
       | .error _ => .error (), res.2)
    | _ => (.ok false, [])

/-- Splits a character list at each `:`.  Always returns at least one (possibly
empty) segment; an empty input yields one empty segment, mirroring
`"".split(":")`. -/
def splitColon : List Char → List (List Char)
  | [] => [[]]
  | c :: rest =>
    if c = ':' then [] :: splitColon rest
    else
      match splitColon rest with
      | s :: ss => (c :: s) :: ss
      | [] => [[c]]

/-- Modelled from the spec: `Urn.guard` / `Urn.fromValidString` / `Urn.parts`
from `@twin.org/core` are not under src.  Per the spec a valid hierarchical
identifier is a sequence of colon-delimited non-empty segments; parsing yields
the ordered segment list, and anything else (empty or delimiter-only strings
included) is malformed (`none`). -/
def urnParts (uri : String) : Option (List String) :=
  let segs := (splitColon uri.toList).map (fun cs => String.mk cs)
  if segs.all (fun s => !s.isEmpty) then some segs else none

/-- Joins segments with the `:` delimiter, as `urnParts.slice(i).join(":")`. -/
def joinColon : List String → String
  | [] => ""
  | [s] => s
  | s :: rest => s ++ ":" ++ joinColon rest

/-- The candidate examined at loop iteration `k` of the resolver: the loop
variable runs `i = parts.length - 1, …, 0`, so iteration `k` looks at
`parts.slice(parts.length - 1 - k).join(":")` — the suffix of `k + 1`
segments. -/
def suffixCandidate (parts : List String) (k : Nat) : String :=
  joinColon (parts.drop (parts.length - 1 - k))

/-- All candidates in the order the resolver's loop examines them: suffixes of
ascending length, shortest (one segment) first. -/
def candidates (parts : List String) : List String :=
  (List.range parts.length).map (suffixCandidate parts)

/-- First candidate contained in the registered names (`names.includes` hit
terminating the loop), if any. -/
def firstMatch (names : List String) : List String → Option String
  | [] => none
  | c :: rest => if names.contains c then some c else firstMatch names rest

/-- The guard error of the resolver. -/
inductive ResolveError where
  | malformedIdentifier : ResolveError
deriving Repr, DecidableEq

/-- The namespace resolver registered with `IdentifierHandlerFactory`
(frameworkDataTypes.ts lines 197-209): guards that `uri` is a valid identifier
(throwing otherwise), splits it into segments and scans the suffixes the loop
produces, returning the first registered hit or `none`. -/
def resolveNamespace (names : List String) (uri : String) :
    Except ResolveError (Option String) :=
  match urnParts uri with
  | none => .error .malformedIdentifier
  | some parts => .ok (firstMatch names (candidates parts))

/-- Whether a value is `null` or `undefined` — exactly the receivers on which a
JavaScript property read throws. -/
def JSValue.isNullish : JSValue → Bool
  | .null => true
  | .undefined => true
  | _ => false

/-- The elements a value contributes when used as a list: the elements of an
array, nothing otherwise. -/
def elemsOf : JSValue → List JSValue
  | .arr xs => xs
  | _ => []

/-- The failures appended by the three field-level structural checks of
`validateIProperty` (frameworkDataTypes.ts lines 170-172), in source order:
key string check, type URL check, value non-empty check. -/
def structFailures (env : Env) (propertyName : String) (value : JSValue) :
    List ValidationFailure :=
  (Validation.stringValue (propertyName ++ ".key") (getProp value "key")).2
    ++ (Url.validate env (propertyName ++ ".type") (getProp value "type")).2
    ++ (Validation.notEmpty (propertyName ++ ".value") (getProp value "value")).2

/-- All failures attributable to element `i` of a property list `vs`: the
duplicate-key failure (checked against the keys of all earlier elements,
duplicated or not) followed by everything `validateIProperty` appends for the
element. -/
def elemFails (env : Env) (propertyName : String) (container : JSValue)
    (vs : List JSValue) (i : Nat) : List ValidationFailure :=
  dupBlock propertyName ((vs.take i).map (fun w => getProp w "key")) i
      (getProp (vs.getD i JSValue.undefined) "key")
    ++ (validateIProperty env (propertyName ++ "[" ++ toString i ++ "]")
          (vs.getD i JSValue.undefined) container).2

/-- An environment whose registry is empty and whose URL predicate accepts
every string. -/
def envNone : Env := ⟨fun _ => true, fun _ => none⟩

/-- An environment whose registry is empty and whose URL predicate rejects
every string. -/
def envFalse : Env := ⟨fun _ => false, fun _ => none⟩

/-- An environment whose registry is empty and whose URL predicate accepts
exactly the type identifier `"T"`. -/
def envT : Env := ⟨fun s => s == "T", fun _ => none⟩

/-- The first element of the spec's duplicate-key example:
`{key: "k", type: T, value: 1}`. -/
def propEx1 : JSValue :=
  .obj [("key", .str "k"), ("type", .str "T"), ("value", .num 1)]

/-- The second element of the spec's duplicate-key example:
`{key: "k", type: T, value: 2}`. -/
def propEx2 : JSValue :=
  .obj [("key", .str "k"), ("type", .str "T"), ("value", .num 2)]

/-! Helper lemmas (shared; none of these is a claim's theorem). -/

/-- If no element of the scanned list is registered, the scan misses. -/
theorem firstMatch_eq_none (names : List String) :
    ∀ l : List String, (∀ c ∈ l, names.contains c = false) →
      firstMatch names l = none := by
  intro l
  induction l with
  | nil => intro _; rfl
  | cons c rest ih =>
    intro h
    have hc := h c (by simp)
    simp only [firstMatch, hc, Bool.false_eq_true, if_false]
    exact ih fun d hd => h d (by simp [hd])

/-- The scan over `(List.range n).map f` returns `f j` when `f j` is registered
and no earlier candidate is. -/
theorem firstMatch_map_range (names : List String) :
    ∀ (n : Nat) (f : Nat → String) (j : Nat), j < n →
      names.contains (f j) = true →
      (∀ k, k < j → names.contains (f k) = false) →
      firstMatch names ((List.range n).map f) = some (f j) := by
  intro n
  induction n with
  | zero => intro f j hj hhit hmiss; exact absurd hj (Nat.not_lt_zero j)
  | succ n ih =>
    intro f j hj hhit hmiss
    rw [List.range_succ_eq_map, List.map_cons, List.map_map]
    cases j with
    | zero =>
      simp only [firstMatch, hhit, if_true]
    | succ j =>
      have h0 : names.contains (f 0) = false := hmiss 0 (Nat.succ_pos j)
      simp only [firstMatch, h0, Bool.false_eq_true, if_false]
      exact ih (f ∘ Nat.succ) j (Nat.lt_of_succ_lt_succ hj) hhit
        fun k hk => hmiss (k + 1) (Nat.succ_lt_succ hk)

/-! Claims about the namespace resolver. -/

/-- Claim C1, counterexample: with registered names `{"a:b", "a"}` and
identifier `"a:b:c"` the resolver returns no match at all — not `"a:b"` as the
claim states — because the loop scans suffixes (`"c"`, `"b:c"`, `"a:b:c"`) and
neither registered name is a suffix of the segment sequence. -/
theorem resolveNamespace_longest_match_cex :
    resolveNamespace ["a:b", "a"] "a:b:c" = Except.ok none ∧
    resolveNamespace ["a:b", "a"] "a:b:c" ≠ Except.ok (some "a:b") := by
  refine ⟨rfl, fun h => ?_⟩
  rw [show resolveNamespace ["a:b", "a"] "a:b:c" = Except.ok none from rfl] at h
  exact Option.noConfusion (Except.ok.inj h)

/-- Claim C1, amended: the resolver's loop runs `i` from the last segment index
down to `0` while the candidate is `parts.slice(i).join(":")`, so the candidate
suffixes are tried in strictly ascending length order and the shortest
registered suffix wins: if the suffix of `j + 1` segments is registered and no
shorter suffix is, that suffix is returned. -/
theorem resolveNamespace_shortest_match (names : List String) (uri : String)
    (parts : List String) (hp : urnParts uri = some parts)
    (j : Nat) (hj : j < parts.length)
    (hhit : names.contains (suffixCandidate parts j) = true)
    (hmiss : ∀ k, k < j → names.contains (suffixCandidate parts k) = false) :
    resolveNamespace names uri = Except.ok (some (suffixCandidate parts j)) := by
  unfold resolveNamespace
  rw [hp]
  exact congrArg Except.ok
    (firstMatch_map_range names parts.length (suffixCandidate parts) j hj hhit hmiss)

/-- Claim C1, witness: with registered names `{"b:c", "c"}` and identifier
`"a:b:c"`, both names are suffixes and the shortest, `"c"`, is returned. -/
theorem resolveNamespace_shortest_match_witness :
    ["b:c", "c"].contains (suffixCandidate ["a", "b", "c"] 0) = true ∧
    resolveNamespace ["b:c", "c"] "a:b:c"
      = Except.ok (some (suffixCandidate ["a", "b", "c"] 0)) :=
  ⟨rfl,
    resolveNamespace_shortest_match ["b:c", "c"] "a:b:c" ["a", "b", "c"] rfl 0
      (by decide) rfl (fun k hk => absurd hk (Nat.not_lt_zero k))⟩

/-- Claim C6: a `uri` that does not parse as a hierarchical identifier makes
the resolver fail with the malformed-identifier guard error, before any
resolution attempt and for every candidate set. -/
theorem resolveNamespace_malformed_guard (names : List String) (uri : String)
    (h : urnParts uri = none) :
    resolveNamespace names uri = Except.error ResolveError.malformedIdentifier := by
  unfold resolveNamespace
  rw [h]

/-- Claim C6, witness: the delimiter-only identifier `":"` (and the empty
identifier `""`) are malformed and raise the guard error. -/
theorem resolveNamespace_malformed_guard_witness :
    urnParts ":" = none ∧
    resolveNamespace ["a"] ":" = Except.error ResolveError.malformedIdentifier ∧
    resolveNamespace [] "" = Except.error ResolveError.malformedIdentifier :=
  ⟨rfl, resolveNamespace_malformed_guard ["a"] ":" rfl,
    resolveNamespace_malformed_guard [] "" rfl⟩

/-- Claim C8: when no suffix of the identifier's segment sequence, at any
length, is among the registered names, the resolver returns absent and raises
no error. -/
theorem resolveNamespace_no_match_absent (names : List String) (uri : String)
    (parts : List String) (hp : urnParts uri = some parts)
    (hm : ∀ c ∈ candidates parts, names.contains c = false) :
    resolveNamespace names uri = Except.ok none := by
  unfold resolveNamespace
  rw [hp]
  exact congrArg Except.ok (firstMatch_eq_none names (candidates parts) hm)

/-- Claim C8, witness: registered names `{"x:y"}` and identifier `"a:b:c"`
share no suffix, and resolution returns absent. -/
theorem resolveNamespace_no_match_absent_witness :
    (∀ c ∈ candidates ["a", "b", "c"], ["x:y"].contains c = false) ∧
    resolveNamespace ["x:y"] "a:b:c" = Except.ok none :=
  ⟨by decide,
    resolveNamespace_no_match_absent ["x:y"] "a:b:c" ["a", "b", "c"] rfl (by decide)⟩

/-! Claims about `validateIProperty`. -/

/-- Claim C2, counterexample: for the Property `{key: "", type: "t", value:
null}` in an environment rejecting every URL, all three field-level structural
rules fail (empty key, invalid type identifier, empty value), yet
`validateIProperty` still returns `true` — so the boolean is not "true iff
every structural rule passed". -/
theorem validateIProperty_iff_structural_cex :
    (validateIProperty envFalse "p"
        (JSValue.obj [("key", JSValue.str ""), ("type", JSValue.str "t"),
          ("value", JSValue.null)]) JSValue.undefined).1 = true ∧
    (Validation.stringValue "p.key" (JSValue.str "")).1 = false ∧
    (Url.validate envFalse "p.type" (JSValue.str "t")).1 = false ∧
    (Validation.notEmpty "p.value" JSValue.null).1 = false :=
  ⟨rfl, rfl, rfl, rfl⟩

/-- Claim C2, amended: `validateIProperty` returns `true` iff the value passes
the object structural rule alone; the key, type and value rules and any nested
validator affect only the failures sink, never the returned boolean (which is
the same for every environment, i.e. independent of nested validators). -/
theorem validateIProperty_bool_is_object_rule (env : Env) (propertyName : String)
    (value container : JSValue) :
    (validateIProperty env propertyName value container).1 = JSValue.isObj value := by
  cases value <;> rfl

/-- Claim C5: for an object Property whose `type` is a syntactically valid
identifier that either misses the registry or resolves to a handler without a
validator, `validateIProperty` returns `true` and appends exactly the three
field-level structural failures — no nested validation happens and no failure
is recorded for the unresolved type, whatever the shape of the `value` field. -/
theorem validateIProperty_unregistered_permissive (env : Env) (propertyName : String)
    (fields : List (String × JSValue)) (container : JSValue) (t : String)
    (ht : getProp (JSValue.obj fields) "type" = JSValue.str t)
    (hurl : env.isUrl t = true)
    (hreg : (env.registry t).bind DataTypeHandler.validate = none) :
    validateIProperty env propertyName (JSValue.obj fields) container
      = (true, structFailures env propertyName (JSValue.obj fields)) := by
  unfold validateIProperty structFailures
  rw [ht]
  simp [Validation.object, Url.validate, hurl, hreg]

/-- Claim C5, witness: a Property `{type: "u"}` (with missing key and value
fields) in an environment with an empty registry validates to `true` with only
the structural failures, no nested ones. -/
theorem validateIProperty_unregistered_permissive_witness :
    getProp (JSValue.obj [("type", JSValue.str "u")]) "type" = JSValue.str "u" ∧
    envNone.isUrl "u" = true ∧
    (envNone.registry "u").bind DataTypeHandler.validate = none ∧
    validateIProperty envNone "p" (JSValue.obj [("type", JSValue.str "u")])
        JSValue.undefined
      = (true, structFailures envNone "p" (JSValue.obj [("type", JSValue.str "u")])) :=
  ⟨rfl, rfl, rfl,
    validateIProperty_unregistered_permissive envNone "p"
      [("type", JSValue.str "u")] JSValue.undefined "u" rfl rfl rfl⟩

/-! Claims about `validateIPropertyList`. -/

/-- Claim C7: an absent (`null`/`undefined`) or empty list validates to `true`
with no failures appended, for every environment, property name and
container. -/
theorem validateIPropertyList_vacuous (env : Env) (propertyName : String)
    (container : JSValue) :
    validateIPropertyList env propertyName JSValue.null container = (.ok true, []) ∧
    validateIPropertyList env propertyName JSValue.undefined container = (.ok true, []) ∧
    validateIPropertyList env propertyName (JSValue.arr []) container = (.ok true, []) :=
  ⟨rfl, rfl, rfl⟩

/-- Claim C10: a value that is neither absent nor an array makes
`validateIPropertyList` return `false` while appending nothing to the failures
sink — the kind mismatch of the list itself is signalled only through the
boolean. -/
theorem validateIPropertyList_nonarray_no_failures (env : Env) (propertyName : String)
    (container : JSValue) (value : JSValue)
    (hempty : Is.empty value = false) (harr : Is.array value = false) :
    validateIPropertyList env propertyName value container = (.ok false, []) := by
  cases value with
  | null => simp [Is.empty] at hempty
  | undefined => simp [Is.empty] at hempty
  | arr xs => simp [Is.array] at harr
  | bool b => rfl
  | num n => rfl
  | str s => rfl
  | obj fs => rfl

/-- Claim C10, witness: the number `5`, a string and a plain object are neither
absent nor arrays, and each yields `(false, no failures)`. -/
theorem validateIPropertyList_nonarray_no_failures_witness :
    Is.empty (JSValue.num 5) = false ∧ Is.array (JSValue.num 5) = false ∧
    validateIPropertyList envNone "p" (JSValue.num 5) JSValue.undefined
      = (.ok false, []) ∧
    validateIPropertyList envNone "p" (JSValue.obj []) JSValue.undefined
      = (.ok false, []) :=
  ⟨rfl, rfl,
    validateIPropertyList_nonarray_no_failures envNone "p" JSValue.undefined
      (JSValue.num 5) rfl rfl,
    validateIPropertyList_nonarray_no_failures envNone "p" JSValue.undefined
      (JSValue.obj []) rfl rfl⟩

/-- Property reads do not throw on non-nullish receivers. -/
theorem getPropEx_ok_of_not_nullish (v : JSValue) (name : String)
    (h : JSValue.isNullish v = false) : getPropEx v name = .ok (getProp v name) := by
  cases v <;> first | rfl | simp [JSValue.isNullish] at h

/-- Objects are not nullish. -/
theorem isNullish_eq_false_of_isObj (v : JSValue) (h : JSValue.isObj v = true) :
    JSValue.isNullish v = false := by
  cases v <;> simp_all [JSValue.isObj, JSValue.isNullish]

/-- The list-validation loop runs to completion whenever no element is
`null`/`undefined` (only the `element.key` read can throw). -/
theorem propListLoop_ok (env : Env) (propertyName : String) (container : JSValue) :
    ∀ (rest : List JSValue) (i : Nat) (keys : List JSValue),
      (∀ v ∈ rest, JSValue.isNullish v = false) →
      (propListLoop env propertyName container rest i keys).1 = .ok () := by
  intro rest
  induction rest with
  | nil => intro i keys _; rfl
  | cons v rest ih =>
    intro i keys h
    have hv := getPropEx_ok_of_not_nullish v "key" (h v (by simp))
    simp only [propListLoop, hv]
    exact ih (i + 1) (keys ++ [getProp v "key"]) fun w hw => h w (by simp [hw])

/-- Claim C3, counterexample: validating the list `[null]` reads `.key` of
`null` and throws a TypeError — the call does not return normally with a
boolean. -/
theorem validateIPropertyList_throws_on_null_cex :
    (validateIPropertyList envNone "p" (JSValue.arr [JSValue.null])
        JSValue.undefined).1 = Except.error () := rfl

/-- Claim C3, amended: `validateIProperty` never raises for any input (it is a
total function into `Bool ×` failures), and `validateIPropertyList` returns
normally with a boolean for every input whose array elements are all
non-nullish; only a non-empty array containing `null`/`undefined` makes the
`element.key` read throw.  Detected violations are only ever appended to the
failures sink. -/
theorem validateIPropertyList_no_throw (env : Env) (propertyName : String)
    (container : JSValue) (value : JSValue)
    (h : ∀ v ∈ elemsOf value, JSValue.isNullish v = false) :
    ∃ b, (validateIPropertyList env propertyName value container).1 = Except.ok b := by
  cases value with
  | null => exact ⟨true, rfl⟩
  | undefined => exact ⟨true, rfl⟩
  | arr xs =>
    refine ⟨true, ?_⟩
    have hx : (propListLoop env propertyName container xs 0 []).1 = .ok () :=
      propListLoop_ok env propertyName container xs 0 [] h
    show (match (propListLoop env propertyName container xs 0 []).1 with
          | .ok _ => (Except.ok true : Except Unit Bool)
          | .error _ => .error ()) = Except.ok true
    rw [hx]
  | bool b => exact ⟨false, rfl⟩
  | num n => exact ⟨false, rfl⟩
  | str s => exact ⟨false, rfl⟩
  | obj fs => exact ⟨false, rfl⟩

/-- Claim C3, witness: a list whose single element is the (non-object) number
`5` is processed without a throw. -/
theorem validateIPropertyList_no_throw_witness :
    (∀ v ∈ elemsOf (JSValue.arr [JSValue.num 5]), JSValue.isNullish v = false) ∧
    ∃ b, (validateIPropertyList envNone "p" (JSValue.arr [JSValue.num 5])
            JSValue.undefined).1 = Except.ok b :=
  ⟨by decide,
    validateIPropertyList_no_throw envNone "p" JSValue.undefined
      (JSValue.arr [JSValue.num 5]) (by decide)⟩

/-- Closed form of the list-validation loop on all-object lists: it completes
normally and the appended failures are, element by element in traversal order,
the duplicate-key block (checked against the accumulated keys) followed by the
element's `validateIProperty` failures. -/
theorem propListLoop_decomp (env : Env) (propertyName : String) (container : JSValue) :
    ∀ (rest : List JSValue) (i0 : Nat) (keys0 : List JSValue),
      (∀ v ∈ rest, JSValue.isObj v = true) →
      propListLoop env propertyName container rest i0 keys0 =
        (.ok (), ((List.range rest.length).map (fun k =>
            dupBlock propertyName
                (keys0 ++ (rest.take k).map (fun w => getProp w "key"))
                (i0 + k) (getProp (rest.getD k JSValue.undefined) "key")
              ++ (validateIProperty env
                    (propertyName ++ "[" ++ toString (i0 + k) ++ "]")
                    (rest.getD k JSValue.undefined) container).2)).flatten) := by
  intro rest
  induction rest with
  | nil => intro i0 keys0 _; rfl
  | cons v rest ih =>
    intro i0 keys0 h
    have hv : getPropEx v "key" = .ok (getProp v "key") :=
      getPropEx_ok_of_not_nullish v "key" (isNullish_eq_false_of_isObj v (h v (by simp)))
    have hrest : ∀ w ∈ rest, JSValue.isObj w = true := fun w hw => h w (by simp [hw])
    simp only [propListLoop, hv]
    rw [ih (i0 + 1) (keys0 ++ [getProp v "key"]) hrest]
    simp only [List.length_cons, List.range_succ_eq_map, List.map_cons, List.map_map,
      List.flatten_cons, List.take_zero, List.map_nil, List.append_nil, Nat.add_zero,
      List.getD_cons_zero]
    congr 1
    refine congrArg _ (congrArg List.flatten (List.map_congr_left ?_))
    intro k _
    have hidx : i0 + (k + 1) = i0 + 1 + k := by omega
    simp [Function.comp, List.take_succ_cons, List.getD_cons_succ, hidx]

/-- Closed form of `validateIPropertyList` on an array of objects: the result
is `true` and the sink receives, in traversal order, each element's failures
(`elemFails`). -/
theorem validateIPropertyList_decomp (env : Env) (propertyName : String)
    (container : JSValue) (vs : List JSValue)
    (hobj : ∀ v ∈ vs, JSValue.isObj v = true) :
    validateIPropertyList env propertyName (JSValue.arr vs) container =
      (.ok true,
        ((List.range vs.length).map (elemFails env propertyName container vs)).flatten) := by
  have hstep : validateIPropertyList env propertyName (JSValue.arr vs) container
      = (match (propListLoop env propertyName container vs 0 []).1 with
         | .ok _ => (.ok true : Except Unit Bool)
         | .error _ => .error (), (propListLoop env propertyName container vs 0 []).2) := rfl
  rw [hstep, propListLoop_decomp env propertyName container vs 0 [] hobj]
  refine congrArg (Prod.mk (Except.ok true)) ?_
  refine congrArg List.flatten (List.map_congr_left ?_)
  intro k _
  simp [elemFails]

/-- Claim C4: on any array of objects, `validateIPropertyList` appends, per
element `i` in order, exactly the block `elemFails` — one duplicate-key failure
at `propertyName[i].key` when (and only when) element `i`'s key equals the key
of some earlier element (every earlier key is recorded, duplicated or not),
followed by the element's full `validateIProperty` delegation — and processing
never aborts.  In particular the spec's two-element example
`[{key:"k",type:T,value:1},{key:"k",type:T,value:2}]` yields exactly one
failure, with the duplicate reason, at the second element's key path. -/
theorem validateIPropertyList_duplicate_keys :
    (∀ (env : Env) (propertyName : String) (container : JSValue) (vs : List JSValue),
        (∀ v ∈ vs, JSValue.isObj v = true) →
        validateIPropertyList env propertyName (JSValue.arr vs) container
          = (.ok true,
             ((List.range vs.length).map
                (elemFails env propertyName container vs)).flatten))
    ∧ validateIPropertyList envT "p" (JSValue.arr [propEx1, propEx2]) JSValue.undefined
        = (.ok true, [⟨"p[1].key", keyAlreadyExists⟩]) :=
  ⟨fun env propertyName container vs h =>
      validateIPropertyList_decomp env propertyName container vs h,
    rfl⟩

/-- Claim C4, witness: the decomposition instantiated at the singleton list
`[propEx1]`. -/
theorem validateIPropertyList_duplicate_keys_witness :
    validateIPropertyList envT "q" (JSValue.arr [propEx1]) JSValue.undefined
      = (.ok true,
         ((List.range [propEx1].length).map
            (elemFails envT "q" JSValue.undefined [propEx1])).flatten) :=
  validateIPropertyList_duplicate_keys.1 envT "q" JSValue.undefined [propEx1] (by decide)

/-- Claim C9: failures are appended in traversal order — for every split point
`i`, the sink contents are exactly the failures of elements before `i`
followed by the failures of elements from `i` on, so everything element `i`
contributes (duplicate-key, structural and nested failures alike, collected in
`elemFails`) precedes everything element `i + 1` contributes. -/
theorem validateIPropertyList_traversal_order (env : Env) (propertyName : String)
    (container : JSValue) (vs : List JSValue)
    (hobj : ∀ v ∈ vs, JSValue.isObj v = true) (i : Nat) :
    (validateIPropertyList env propertyName (JSValue.arr vs) container).2 =
      (((List.range vs.length).take i).map
          (elemFails env propertyName container vs)).flatten
        ++ (((List.range vs.length).drop i).map
          (elemFails env propertyName container vs)).flatten := by
  rw [validateIPropertyList_decomp env propertyName container vs hobj]
  rw [← List.flatten_append, ← List.map_append, List.take_append_drop]

/-- Claim C9, witness: the ordering split at `i = 1` for the two-element
duplicate-key example. -/
theorem validateIPropertyList_traversal_order_witness :
    (validateIPropertyList envT "p" (JSValue.arr [propEx1, propEx2])
        JSValue.undefined).2 =
      (((List.range [propEx1, propEx2].length).take 1).map
          (elemFails envT "p" JSValue.undefined [propEx1, propEx2])).flatten
        ++ (((List.range [propEx1, propEx2].length).drop 1).map
          (elemFails envT "p" JSValue.undefined [propEx1, propEx2])).flatten :=
  validateIPropertyList_traversal_order envT "p" JSValue.undefined
    [propEx1, propEx2] (by decide) 1
